import Mathlib

/-
Verification of the predicate-expression (filter) subsystem and the
partition-filter helpers of the Aerospike C client.

The partition-filter section is a direct shallow embedding of the static
inline functions in src/include/aerospike/as_partition_filter.h.  C unsigned
integers are modelled as Nat with explicit reduction modulo 2^w at every
point where the C code narrows a value (assignment of a uint32_t argument to
a uint16_t struct field truncates modulo 2^16).

The predicate-expression section embeds the node catalog declared in
src/include/aerospike/as_predexp.h.  The bodies of the factory functions,
of as_predexp_list_size / as_predexp_list_write and of the server-side
evaluator are not part of the visible sources (the header carries only
declarations and documentation), so those definitions are modelled from the
specification, as marked in their doc comments.
-/

namespace Aerospike

/-! ## Partition filter (as_partition_filter.h) -/

/-- Digest record from as_key.h: a boolean init flag plus the digest value
bytes.  Only the fields are relevant here; the byte array is a list. -/
structure as_digest where
  init : Bool
  value : List Nat

/-- Partition filter struct: uint16_t begin, uint16_t count, as_digest digest.
The 16-bit fields are Nats that every setter reduces modulo 2^16, matching
C narrowing conversion. -/
structure as_partition_filter where
  begin : Nat
  count : Nat
  digest : as_digest

/-- Embeds as_partition_filter_set_id: pf.begin = part_id (uint32 narrowed to
uint16), pf.count = 1, pf.digest.init = false.  The digest value bytes are
not touched. -/
def as_partition_filter_set_id (pf : as_partition_filter) (part_id : Nat) :
    as_partition_filter :=
  { pf with
    begin := part_id % 2 ^ 16
    count := 1
    digest := { pf.digest with init := false } }

/-- Embeds as_partition_filter_set_after: pf.begin = 0, pf.count = 1,
pf.digest = *digest (whole-struct copy). -/
def as_partition_filter_set_after (pf : as_partition_filter) (digest : as_digest) :
    as_partition_filter :=
  { pf with begin := 0, count := 1, digest := digest }

/-- Embeds as_partition_filter_set_range: pf.begin and pf.count are the uint32
arguments narrowed to uint16, pf.digest.init = false.  The digest value bytes
are not touched. -/
def as_partition_filter_set_range (pf : as_partition_filter) (b c : Nat) :
    as_partition_filter :=
  { pf with
    begin := b % 2 ^ 16
    count := c % 2 ^ 16
    digest := { pf.digest with init := false } }

/-- C9: as_partition_filter_set_id and as_partition_filter_set_range store
their uint32 arguments into the 16-bit begin/count fields truncated modulo
2^16, so any argument above 65535 is silently wrapped (in particular the
stored value then differs from the argument). -/
theorem set_id_and_set_range_truncate_mod_2_16
    (pf : as_partition_filter) (part_id b c : Nat) :
    (as_partition_filter_set_id pf part_id).begin = part_id % 2 ^ 16 ∧
    (as_partition_filter_set_id pf part_id).count = 1 ∧
    (as_partition_filter_set_range pf b c).begin = b % 2 ^ 16 ∧
    (as_partition_filter_set_range pf b c).count = c % 2 ^ 16 ∧
    (2 ^ 16 ≤ part_id → (as_partition_filter_set_id pf part_id).begin ≠ part_id) := by
  refine ⟨rfl, rfl, rfl, rfl, fun h => ?_⟩
  have hlt : part_id % 2 ^ 16 < 2 ^ 16 := Nat.mod_lt _ (by norm_num)
  simp only [as_partition_filter_set_id]
  omega

/-- Concrete instance of the truncation theorem: filter set to partition id
70000 (above the 0-4095 documented range and above 65535) stores 4464. -/
theorem set_id_and_set_range_truncate_witness :
    2 ^ 16 ≤ 70000 ∧
    (as_partition_filter_set_id ⟨0, 0, ⟨false, []⟩⟩ 70000).begin ≠ 70000 := by
  refine ⟨by norm_num, ?_⟩
  exact (set_id_and_set_range_truncate_mod_2_16 ⟨0, 0, ⟨false, []⟩⟩ 70000 0 0).2.2.2.2
    (by norm_num)

/-- C10: as_partition_filter_set_after leaves begin = 0, count = 1 and copies
the digest argument field-for-field (init flag and value bytes); set_id and
set_range clear only digest.init and leave the digest value bytes unchanged. -/
theorem set_after_copies_digest_others_clear_init_only
    (pf : as_partition_filter) (d : as_digest) (part_id b c : Nat) :
    (as_partition_filter_set_after pf d).begin = 0 ∧
    (as_partition_filter_set_after pf d).count = 1 ∧
    (as_partition_filter_set_after pf d).digest.init = d.init ∧
    (as_partition_filter_set_after pf d).digest.value = d.value ∧
    (as_partition_filter_set_id pf part_id).digest.init = false ∧
    (as_partition_filter_set_id pf part_id).digest.value = pf.digest.value ∧
    (as_partition_filter_set_range pf b c).digest.init = false ∧
    (as_partition_filter_set_range pf b c).digest.value = pf.digest.value :=
  ⟨rfl, rfl, rfl, rfl, rfl, rfl, rfl, rfl⟩

/-! ## Predicate expression node catalog (as_predexp.h)

The node variants, their argument types and their names follow the factory
declarations of as_predexp.h.  Byte strings (bin names, iteration-variable
names, string and GeoJSON constants) are lists of bytes. -/

/-- Predicate expression node.  One constructor per factory declared in
as_predexp.h; the argument of each constructor is the factory argument
(uint16 nexpr for and/or, int64 constant, byte-string names, int32 modulus,
uint32 regex cflags). -/
inductive as_predexp where
  | and_ (nexpr : Nat)
  | or_ (nexpr : Nat)
  | not_
  | integer_value (value : Int)
  | string_value (value : List Nat)
  | geojson_value (value : List Nat)
  | integer_bin (binname : List Nat)
  | string_bin (binname : List Nat)
  | geojson_bin (binname : List Nat)
  | list_bin (binname : List Nat)
  | map_bin (binname : List Nat)
  | integer_var (varname : List Nat)
  | string_var (varname : List Nat)
  | geojson_var (varname : List Nat)
  | rec_device_size
  | rec_last_update
  | rec_void_time
  | rec_digest_modulo (mod : Int)
  | integer_equal
  | integer_unequal
  | integer_greater
  | integer_greatereq
  | integer_less
  | integer_lesseq
  | string_equal
  | string_unequal
  | string_regex (cflags : Nat)
  | geojson_within
  | geojson_contains
  | list_iterate_or (varname : List Nat)
  | list_iterate_and (varname : List Nat)
  | mapkey_iterate_or (varname : List Nat)
  | mapkey_iterate_and (varname : List Nat)
  | mapval_iterate_or (varname : List Nat)
  | mapval_iterate_and (varname : List Nat)

/-! ### Wire encoding

Modelled from the spec: the bodies of the per-node size/write hooks and of
as_predexp_list_size / as_predexp_list_write live in a source file that is
not part of the visible material (as_predexp.h only declares them), so the
encoding below follows the normative wire layout of the spec: per node a
big-endian uint16 tag, a big-endian uint32 payload length, then the payload;
AND/OR carry a uint16 child count, integer constants an int64, DigestModulo
an int32, StringRegex a uint32, names and string constants their raw bytes,
and everything else an empty payload. -/

/-- Big-endian bytes of a 16-bit value. -/
def uint16BE (n : Nat) : List Nat :=
  [n / 2 ^ 8 % 2 ^ 8, n % 2 ^ 8]

/-- Big-endian bytes of a 32-bit value. -/
def uint32BE (n : Nat) : List Nat :=
  [n / 2 ^ 24 % 2 ^ 8, n / 2 ^ 16 % 2 ^ 8, n / 2 ^ 8 % 2 ^ 8, n % 2 ^ 8]

/-- Big-endian bytes of a 64-bit value. -/
def uint64BE (n : Nat) : List Nat :=
  [n / 2 ^ 56 % 2 ^ 8, n / 2 ^ 48 % 2 ^ 8, n / 2 ^ 40 % 2 ^ 8, n / 2 ^ 32 % 2 ^ 8,
   n / 2 ^ 24 % 2 ^ 8, n / 2 ^ 16 % 2 ^ 8, n / 2 ^ 8 % 2 ^ 8, n % 2 ^ 8]

/-- Big-endian two-complement bytes of an int64. -/
def int64BE (i : Int) : List Nat :=
  uint64BE (i % 2 ^ 64).toNat

/-- Big-endian two-complement bytes of an int32. -/
def int32BE (i : Int) : List Nat :=
  uint32BE (i % 2 ^ 32).toNat

/-- Modelled from the spec: numeric wire tag of each variant.  The spec
requires a stable densely packed tag per variant without fixing the values;
the assignment below is the frozen protocol assignment. -/
def predexp_tag : as_predexp → Nat
  | .and_ _ => 1
  | .or_ _ => 2
  | .not_ => 3
  | .integer_value _ => 10
  | .string_value _ => 11
  | .geojson_value _ => 12
  | .integer_bin _ => 100
  | .string_bin _ => 101
  | .geojson_bin _ => 102
  | .list_bin _ => 103
  | .map_bin _ => 104
  | .integer_var _ => 120
  | .string_var _ => 121
  | .geojson_var _ => 122
  | .rec_device_size => 150
  | .rec_last_update => 151
  | .rec_void_time => 152
  | .rec_digest_modulo _ => 153
  | .integer_equal => 200
  | .integer_unequal => 201
  | .integer_greater => 202
  | .integer_greatereq => 203
  | .integer_less => 204
  | .integer_lesseq => 205
  | .string_equal => 210
  | .string_unequal => 211
  | .string_regex _ => 212
  | .geojson_within => 220
  | .geojson_contains => 221
  | .list_iterate_or _ => 250
  | .list_iterate_and _ => 251
  | .mapkey_iterate_or _ => 252
  | .mapkey_iterate_and _ => 253
  | .mapval_iterate_or _ => 254
  | .mapval_iterate_and _ => 255

/-- Modelled from the spec: variant-specific payload bytes (the value part of
the TLV layout of spec section 4.3). -/
def predexp_payload : as_predexp → List Nat
  | .and_ nexpr => uint16BE nexpr
  | .or_ nexpr => uint16BE nexpr
  | .not_ => []
  | .integer_value v => int64BE v
  | .string_value s => s
  | .geojson_value s => s
  | .integer_bin nm => nm
  | .string_bin nm => nm
  | .geojson_bin nm => nm
  | .list_bin nm => nm
  | .map_bin nm => nm
  | .integer_var nm => nm
  | .string_var nm => nm
  | .geojson_var nm => nm
  | .rec_device_size => []
  | .rec_last_update => []
  | .rec_void_time => []
  | .rec_digest_modulo m => int32BE m
  | .integer_equal => []
  | .integer_unequal => []
  | .integer_greater => []
  | .integer_greatereq => []
  | .integer_less => []
  | .integer_lesseq => []
  | .string_equal => []
  | .string_unequal => []
  | .string_regex c => uint32BE c
  | .geojson_within => []
  | .geojson_contains => []
  | .list_iterate_or nm => nm
  | .list_iterate_and nm => nm
  | .mapkey_iterate_or nm => nm
  | .mapkey_iterate_and nm => nm
  | .mapval_iterate_or nm => nm
  | .mapval_iterate_and nm => nm

/-- Modelled from the spec: the per-node size hook returns the exact wire
length of the node, a 2-byte tag plus a 4-byte length field plus the
payload bytes. -/
def predexp_size_node (e : as_predexp) : Nat :=
  2 + 4 + (predexp_payload e).length

/-- Modelled from the spec: the per-node write hook emits the TLV bytes of
the node: big-endian uint16 tag, big-endian uint32 payload length, payload. -/
def predexp_write_node (e : as_predexp) : List Nat :=
  uint16BE (predexp_tag e) ++ uint32BE (predexp_payload e).length ++ predexp_payload e

/-- The expression list is the ordered sequence of owned nodes held by the
as_vector inside as_predexp_list. -/
abbrev as_predexp_list := List as_predexp

/-- Embeds as_predexp_list_add, which appends the node pointer at the end of
the vector (as_vector_append, modelled from the spec as append-at-end). -/
def as_predexp_list_add (l : as_predexp_list) (e : as_predexp) : as_predexp_list :=
  l ++ [e]

/-- Modelled from the spec: as_predexp_list_size walks the list once summing
each contained node size hook, adding no list-level header. -/
def as_predexp_list_size : as_predexp_list → Nat
  | [] => 0
  | e :: t => predexp_size_node e + as_predexp_list_size t

/-- Modelled from the spec: as_predexp_list_write walks the list in order,
invoking each node write hook at the advancing cursor.  The accumulator is
the bytes already in the destination buffer before the cursor. -/
def as_predexp_list_write : as_predexp_list → List Nat → List Nat
  | [], p => p
  | e :: t, p => as_predexp_list_write t (p ++ predexp_write_node e)

theorem uint16BE_length (n : Nat) : (uint16BE n).length = 2 := rfl

theorem uint32BE_length (n : Nat) : (uint32BE n).length = 4 := rfl

theorem predexp_write_node_length (e : as_predexp) :
    (predexp_write_node e).length = predexp_size_node e := by
  simp [predexp_write_node, predexp_size_node, uint16BE_length, uint32BE_length]
  omega

theorem as_predexp_list_write_append (l : as_predexp_list) (p : List Nat) :
    as_predexp_list_write l p = p ++ as_predexp_list_write l [] := by
  induction l generalizing p with
  | nil => simp [as_predexp_list_write]
  | cons e t ih =>
    simp only [as_predexp_list_write, List.nil_append]
    rw [ih (p ++ predexp_write_node e), ih (predexp_write_node e)]
    simp

/-- C1: the list write pass emits exactly the number of bytes reported by the
list size pass, and that number is the sum over the contained nodes of
(2 + 4 + payload length), with no list-level header added. -/
theorem list_write_length_eq_list_size (l : as_predexp_list) :
    (as_predexp_list_write l []).length = as_predexp_list_size l ∧
    as_predexp_list_size l =
      (l.map (fun e => 2 + 4 + (predexp_payload e).length)).sum := by
  constructor
  · induction l with
    | nil => rfl
    | cons e t ih =>
      simp only [as_predexp_list_write, as_predexp_list_size, List.nil_append]
      rw [as_predexp_list_write_append t (predexp_write_node e), List.length_append,
        predexp_write_node_length e, ih]
  · induction l with
    | nil => rfl
    | cons e t ih =>
      simp [as_predexp_list_size, predexp_size_node, ih]

/-- C4: appending any node x to any list leaves the total reported size equal
to the previous total plus the encoded size of x. -/
theorem list_size_additive (l : as_predexp_list) (x : as_predexp) :
    as_predexp_list_size (as_predexp_list_add l x) =
      as_predexp_list_size l + predexp_size_node x := by
  induction l with
  | nil => simp [as_predexp_list_add, as_predexp_list_size]
  | cons e t ih =>
    simp only [as_predexp_list_add, List.append_eq] at ih
    simp only [as_predexp_list_add, List.cons_append, as_predexp_list_size,
      List.append_eq, ih]
    omega

/-- C5: a sequence of appends leaves the list holding exactly the appended
nodes in append order (no reordering, deduplication or merging), and the
write pass emits the per-node bytes concatenated in that same order. -/
theorem list_append_order_preserved (startList : as_predexp_list)
    (appended : List as_predexp) (p : List Nat) :
    List.foldl as_predexp_list_add startList appended = startList ++ appended ∧
    as_predexp_list_write appended p =
      p ++ (appended.map predexp_write_node).flatten := by
  constructor
  · induction appended generalizing startList with
    | nil => simp
    | cons e t ih =>
      simp only [List.foldl_cons, ih, as_predexp_list_add, List.append_assoc,
        List.cons_append, List.nil_append]
  · induction appended generalizing p with
    | nil => simp [as_predexp_list_write]
    | cons e t ih =>
      simp only [as_predexp_list_write, List.map_cons, List.flatten_cons]
      rw [ih]
      simp

/-! ## Evaluation contract (server-side semantics, spec section 4.4)

Modelled from the spec: evaluation happens on the server and no evaluator
source is part of this repository; the machine below follows the spec's
stack-machine contract and its edge-case policies (missing or mistyped bins
push unknown, comparisons with an unknown operand are false, OR-iteration
over zero elements is false and AND-iteration over zero elements is true),
which the header documentation of as_predexp.h restates per node. -/

/-- Runtime value on the evaluation stack: typed values, collections, the
unknown value produced by failed bin extraction, and booleans produced by
logical nodes. -/
inductive as_val where
  | intv (i : Int)
  | strv (s : List Nat)
  | geov (s : List Nat)
  | listv (elems : List as_val)
  | mapv (entries : List (as_val × as_val))
  | boolv (b : Bool)
  | unknown

/-- A server record as the evaluator sees it: named bins plus the metadata
the metadata nodes read. -/
structure as_record where
  bins : List (List Nat × as_val)
  device_size : Int
  last_update : Int
  void_time : Int
  digest_val : Int

/-- Iteration-variable environment. -/
abbrev as_env := List (List Nat × as_val)

/-- Server-side semantic functions the client does not define: POSIX regex
matching (cflags, value, pattern) and the two GeoJSON relations.  The
evaluation theorems hold for every oracle. -/
structure ServerOracle where
  regex_match : Nat → List Nat → List Nat → Bool
  geo_within : List Nat → List Nat → Bool
  geo_contains : List Nat → List Nat → Bool

/-- First association for a byte-string key. -/
def assocFind {α : Type} : List (List Nat × α) → List Nat → Option α
  | [], _ => none
  | (k, v) :: t, nm => if k = nm then some v else assocFind t nm

/-- Modelled from the spec: an integer extractor pushes the integer value
when the lookup produced one and the unknown value otherwise (missing bin
or wrong type), never an error. -/
def coerceInt : Option as_val → as_val
  | some (.intv i) => .intv i
  | _ => .unknown

/-- Modelled from the spec: string extractor coercion, unknown on missing or
mistyped values. -/
def coerceStr : Option as_val → as_val
  | some (.strv s) => .strv s
  | _ => .unknown

/-- Modelled from the spec: GeoJSON extractor coercion, unknown on missing or
mistyped values. -/
def coerceGeo : Option as_val → as_val
  | some (.geov s) => .geov s
  | _ => .unknown

/-- Modelled from the spec: list-bin extractor coercion, unknown on missing
or mistyped values. -/
def coerceList : Option as_val → as_val
  | some (.listv es) => .listv es
  | _ => .unknown

/-- Modelled from the spec: map-bin extractor coercion, unknown on missing or
mistyped values. -/
def coerceMap : Option as_val → as_val
  | some (.mapv ps) => .mapv ps
  | _ => .unknown

/-- Truth of a stack value when a logical operand is required. -/
def asB : as_val → Bool
  | .boolv b => b
  | _ => false

/-- Is the value an integer. -/
def isIntVal : as_val → Bool
  | .intv _ => true
  | _ => false

/-- Is the value a string. -/
def isStrVal : as_val → Bool
  | .strv _ => true
  | _ => false

/-- Is the value a GeoJSON string. -/
def isGeoVal : as_val → Bool
  | .geov _ => true
  | _ => false

/-- Is the value a list. -/
def isListVal : as_val → Bool
  | .listv _ => true
  | _ => false

/-- Is the value a map. -/
def isMapVal : as_val → Bool
  | .mapv _ => true
  | _ => false

/-- Modelled from the spec: a comparison with an unknown operand evaluates to
false; otherwise the variant-specific relation decides the boolean. -/
def cmp2 (f : as_val → as_val → Bool) (lv rv : as_val) : as_val :=
  match lv, rv with
  | .unknown, _ => .boolv false
  | _, .unknown => .boolv false
  | _, _ => .boolv (f lv rv)

/-- Integer relation lifted to stack values; false on non-integer operands. -/
def intCmpVal (f : Int → Int → Bool) : as_val → as_val → Bool
  | .intv a, .intv b => f a b
  | _, _ => false

/-- String relation lifted to stack values; false on non-string operands. -/
def strCmpVal (f : List Nat → List Nat → Bool) : as_val → as_val → Bool
  | .strv a, .strv b => f a b
  | _, _ => false

/-- GeoJSON relation lifted to stack values; false on non-GeoJSON operands. -/
def geoCmpVal (f : List Nat → List Nat → Bool) : as_val → as_val → Bool
  | .geov a, .geov b => f a b
  | _, _ => false

/-- Pop the two operands of a comparison from the program suffix (right
operand first, since it sits higher on the stack) and combine with cmp2. -/
def pop2 (step : List as_predexp → Option (as_val × List as_predexp))
    (rest : List as_predexp) (f : as_val → as_val → Bool) :
    Option (as_val × List as_predexp) :=
  match step rest with
  | none => none
  | some (rv, rest1) =>
    match step rest1 with
    | none => none
    | some (lv, rest2) => some (cmp2 f lv rv, rest2)

/-- Pop n child results for AND/OR. -/
def popN (step : List as_predexp → Option (as_val × List as_predexp)) :
    Nat → List as_predexp → Option (List as_val × List as_predexp)
  | 0, rest => some ([], rest)
  | n + 1, rest =>
    match step rest with
    | none => none
    | some (v, rest1) =>
      match popN step n rest1 with
      | none => none
      | some (vs, rest2) => some (v :: vs, rest2)

/-- Elements a list-iteration traverses. -/
def listElems : as_val → Option (List as_val)
  | .listv es => some es
  | _ => none

/-- Elements a map-key iteration traverses. -/
def mapKeyElems : as_val → Option (List as_val)
  | .mapv ps => some (ps.map Prod.fst)
  | _ => none

/-- Elements a map-value iteration traverses. -/
def mapValElems : as_val → Option (List as_val)
  | .mapv ps => some (ps.map Prod.snd)
  | _ => none

/-- Modelled from the spec: an iteration node pops the collection (the
later-pushed right child) and the logical subexpression (the left child),
evaluates the subexpression once per element with the iteration variable
bound to that element, and ORs or ANDs the results; over zero elements OR
yields false and AND yields true.  The extent of the left child in the
postfix program is found by one traversal with the variable bound to
unknown (node consumption does not depend on the environment); a
non-collection right child yields false. -/
def iterCombine (step : as_env → List as_predexp → Option (as_val × List as_predexp))
    (isOr : Bool) (getElems : as_val → Option (List as_val))
    (varname : List Nat) (env : as_env) (rest : List as_predexp) :
    Option (as_val × List as_predexp) :=
  match step env rest with
  | none => none
  | some (coll, rest1) =>
    match step ((varname, .unknown) :: env) rest1 with
    | none => none
    | some (_, rest2) =>
      match getElems coll with
      | some elems =>
        let evalElem := fun e =>
          match step ((varname, e) :: env) rest1 with
          | some (v, _) => asB v
          | none => false
        some (.boolv (if isOr then elems.any evalElem else elems.all evalElem), rest2)
      | none => some (.boolv false, rest2)

/-- Modelled from the spec: the single stack machine of spec section 4.4.
The program is consumed from its last node backwards (the argument list is
the reversed postfix program), so evaluating one node pops its operands by
recursively evaluating the preceding suffix; the result is the node value
together with the unconsumed prefix.  Fuel bounds the recursion depth and
only ever decreases by one per nesting level; none is stack underflow or
fuel exhaustion. -/
def evalR (oc : ServerOracle) (rc : as_record) :
    Nat → as_env → List as_predexp → Option (as_val × List as_predexp)
  | 0, _, _ => none
  | _ + 1, _, [] => none
  | fuel + 1, env, node :: rest =>
    match node with
    | .and_ nexpr =>
      match popN (fun r => evalR oc rc fuel env r) nexpr rest with
      | none => none
      | some (vs, rest1) => some (.boolv (vs.all asB), rest1)
    | .or_ nexpr =>
      match popN (fun r => evalR oc rc fuel env r) nexpr rest with
      | none => none
      | some (vs, rest1) => some (.boolv (vs.any asB), rest1)
    | .not_ =>
      match evalR oc rc fuel env rest with
      | none => none
      | some (v, rest1) => some (.boolv (!asB v), rest1)
    | .integer_value v => some (.intv v, rest)
    | .string_value s => some (.strv s, rest)
    | .geojson_value s => some (.geov s, rest)
    | .integer_bin nm => some (coerceInt (assocFind rc.bins nm), rest)
    | .string_bin nm => some (coerceStr (assocFind rc.bins nm), rest)
    | .geojson_bin nm => some (coerceGeo (assocFind rc.bins nm), rest)
    | .list_bin nm => some (coerceList (assocFind rc.bins nm), rest)
    | .map_bin nm => some (coerceMap (assocFind rc.bins nm), rest)
    | .integer_var nm => some (coerceInt (assocFind env nm), rest)
    | .string_var nm => some (coerceStr (assocFind env nm), rest)
    | .geojson_var nm => some (coerceGeo (assocFind env nm), rest)
    | .rec_device_size => some (.intv rc.device_size, rest)
    | .rec_last_update => some (.intv rc.last_update, rest)
    | .rec_void_time => some (.intv rc.void_time, rest)
    | .rec_digest_modulo m => some (.intv (rc.digest_val % m), rest)
    | .integer_equal =>
      pop2 (fun r => evalR oc rc fuel env r) rest (intCmpVal (fun a b => decide (a = b)))
    | .integer_unequal =>
      pop2 (fun r => evalR oc rc fuel env r) rest (intCmpVal (fun a b => !decide (a = b)))
    | .integer_greater =>
      pop2 (fun r => evalR oc rc fuel env r) rest (intCmpVal (fun a b => decide (b < a)))
    | .integer_greatereq =>
      pop2 (fun r => evalR oc rc fuel env r) rest (intCmpVal (fun a b => decide (b ≤ a)))
    | .integer_less =>
      pop2 (fun r => evalR oc rc fuel env r) rest (intCmpVal (fun a b => decide (a < b)))
    | .integer_lesseq =>
      pop2 (fun r => evalR oc rc fuel env r) rest (intCmpVal (fun a b => decide (a ≤ b)))
    | .string_equal =>
      pop2 (fun r => evalR oc rc fuel env r) rest (strCmpVal (fun a b => decide (a = b)))
    | .string_unequal =>
      pop2 (fun r => evalR oc rc fuel env r) rest (strCmpVal (fun a b => !decide (a = b)))
    | .string_regex c =>
      pop2 (fun r => evalR oc rc fuel env r) rest (strCmpVal (fun v pat => oc.regex_match c v pat))
    | .geojson_within =>
      pop2 (fun r => evalR oc rc fuel env r) rest (geoCmpVal oc.geo_within)
    | .geojson_contains =>
      pop2 (fun r => evalR oc rc fuel env r) rest (geoCmpVal oc.geo_contains)
    | .list_iterate_or nm =>
      iterCombine (fun e2 r2 => evalR oc rc fuel e2 r2) true listElems nm env rest
    | .list_iterate_and nm =>
      iterCombine (fun e2 r2 => evalR oc rc fuel e2 r2) false listElems nm env rest
    | .mapkey_iterate_or nm =>
      iterCombine (fun e2 r2 => evalR oc rc fuel e2 r2) true mapKeyElems nm env rest
    | .mapkey_iterate_and nm =>
      iterCombine (fun e2 r2 => evalR oc rc fuel e2 r2) false mapKeyElems nm env rest
    | .mapval_iterate_or nm =>
      iterCombine (fun e2 r2 => evalR oc rc fuel e2 r2) true mapValElems nm env rest
    | .mapval_iterate_and nm =>
      iterCombine (fun e2 r2 => evalR oc rc fuel e2 r2) false mapValElems nm env rest

theorem cmp2_unknown_left (f : as_val → as_val → Bool) (rv : as_val) :
    cmp2 f .unknown rv = .boolv false := by
  cases rv <;> rfl

theorem cmp2_unknown_right (f : as_val → as_val → Bool) (lv : as_val) :
    cmp2 f lv .unknown = .boolv false := by
  cases lv <;> rfl

theorem coerceInt_not_int (v : as_val) (h : isIntVal v = false) :
    coerceInt (some v) = .unknown := by
  cases v <;> simp_all [isIntVal, coerceInt]

theorem coerceStr_not_str (v : as_val) (h : isStrVal v = false) :
    coerceStr (some v) = .unknown := by
  cases v <;> simp_all [isStrVal, coerceStr]

theorem coerceGeo_not_geo (v : as_val) (h : isGeoVal v = false) :
    coerceGeo (some v) = .unknown := by
  cases v <;> simp_all [isGeoVal, coerceGeo]

theorem coerceList_not_list (v : as_val) (h : isListVal v = false) :
    coerceList (some v) = .unknown := by
  cases v <;> simp_all [isListVal, coerceList]

theorem coerceMap_not_map (v : as_val) (h : isMapVal v = false) :
    coerceMap (some v) = .unknown := by
  cases v <;> simp_all [isMapVal, coerceMap]

/-- The comparison variants of the catalog. -/
def IsComparison (e : as_predexp) : Prop :=
  e = .integer_equal ∨ e = .integer_unequal ∨ e = .integer_greater ∨
  e = .integer_greatereq ∨ e = .integer_less ∨ e = .integer_lesseq ∨
  e = .string_equal ∨ e = .string_unequal ∨ (∃ c, e = .string_regex c) ∨
  e = .geojson_within ∨ e = .geojson_contains

/-- C2: a bin extractor referencing a missing bin or a bin of the wrong type
pushes the unknown value and never an error; every comparison node with at
least one unknown operand evaluates to false (not unknown, not true); and
wrapping such a comparison in NOT evaluates to true. -/
theorem unknown_bin_and_comparison_semantics
    (oc : ServerOracle) (rc : as_record) (fuel : Nat) (env : as_env)
    (rest : List as_predexp) (nm : List Nat) :
    (assocFind rc.bins nm = none →
      evalR oc rc (fuel + 1) env (.integer_bin nm :: rest) = some (.unknown, rest) ∧
      evalR oc rc (fuel + 1) env (.string_bin nm :: rest) = some (.unknown, rest) ∧
      evalR oc rc (fuel + 1) env (.geojson_bin nm :: rest) = some (.unknown, rest) ∧
      evalR oc rc (fuel + 1) env (.list_bin nm :: rest) = some (.unknown, rest) ∧
      evalR oc rc (fuel + 1) env (.map_bin nm :: rest) = some (.unknown, rest)) ∧
    (∀ v, assocFind rc.bins nm = some v →
      (isIntVal v = false →
        evalR oc rc (fuel + 1) env (.integer_bin nm :: rest) = some (.unknown, rest)) ∧
      (isStrVal v = false →
        evalR oc rc (fuel + 1) env (.string_bin nm :: rest) = some (.unknown, rest)) ∧
      (isGeoVal v = false →
        evalR oc rc (fuel + 1) env (.geojson_bin nm :: rest) = some (.unknown, rest)) ∧
      (isListVal v = false →
        evalR oc rc (fuel + 1) env (.list_bin nm :: rest) = some (.unknown, rest)) ∧
      (isMapVal v = false →
        evalR oc rc (fuel + 1) env (.map_bin nm :: rest) = some (.unknown, rest))) ∧
    (∀ node rv lv rest1 rest2, IsComparison node →
      evalR oc rc fuel env rest = some (rv, rest1) →
      evalR oc rc fuel env rest1 = some (lv, rest2) →
      (lv = .unknown ∨ rv = .unknown) →
      evalR oc rc (fuel + 1) env (node :: rest) = some (.boolv false, rest2) ∧
      evalR oc rc (fuel + 1 + 1) env (.not_ :: node :: rest) = some (.boolv true, rest2)) := by
  refine ⟨fun h => ?_, fun v hv => ?_, fun node rv lv rest1 rest2 hcmp h1 h2 hu => ?_⟩
  · exact ⟨by simp [evalR, h, coerceInt], by simp [evalR, h, coerceStr],
      by simp [evalR, h, coerceGeo], by simp [evalR, h, coerceList],
      by simp [evalR, h, coerceMap]⟩
  · exact ⟨fun ht => by simp [evalR, hv, coerceInt_not_int v ht],
      fun ht => by simp [evalR, hv, coerceStr_not_str v ht],
      fun ht => by simp [evalR, hv, coerceGeo_not_geo v ht],
      fun ht => by simp [evalR, hv, coerceList_not_list v ht],
      fun ht => by simp [evalR, hv, coerceMap_not_map v ht]⟩
  · rcases hu with rfl | rfl <;>
      rcases hcmp with rfl | rfl | rfl | rfl | rfl | rfl | rfl | rfl | ⟨c, rfl⟩ | rfl | rfl <;>
      refine ⟨?_, ?_⟩ <;>
      simp [evalR, pop2, h1, h2, cmp2_unknown_left, cmp2_unknown_right, asB]

/-- C3: every iteration OR node applied to a collection with zero elements
evaluates to false and every iteration AND node applied to a collection
with zero elements evaluates to true, for the list, map-key and map-value
iteration variants. -/
theorem iterate_empty_collection_vacuous
    (oc : ServerOracle) (rc : as_record) (fuel : Nat) (env : as_env)
    (rest rest1 rest2 : List as_predexp) (varname : List Nat) (bv : as_val) :
    (evalR oc rc fuel env rest = some (.listv [], rest1) →
      evalR oc rc fuel ((varname, .unknown) :: env) rest1 = some (bv, rest2) →
      evalR oc rc (fuel + 1) env (.list_iterate_or varname :: rest) =
        some (.boolv false, rest2) ∧
      evalR oc rc (fuel + 1) env (.list_iterate_and varname :: rest) =
        some (.boolv true, rest2)) ∧
    (evalR oc rc fuel env rest = some (.mapv [], rest1) →
      evalR oc rc fuel ((varname, .unknown) :: env) rest1 = some (bv, rest2) →
      evalR oc rc (fuel + 1) env (.mapkey_iterate_or varname :: rest) =
        some (.boolv false, rest2) ∧
      evalR oc rc (fuel + 1) env (.mapkey_iterate_and varname :: rest) =
        some (.boolv true, rest2) ∧
      evalR oc rc (fuel + 1) env (.mapval_iterate_or varname :: rest) =
        some (.boolv false, rest2) ∧
      evalR oc rc (fuel + 1) env (.mapval_iterate_and varname :: rest) =
        some (.boolv true, rest2)) := by
  constructor
  · intro h1 h2
    constructor <;> simp [evalR, iterCombine, h1, h2, listElems]
  · intro h1 h2
    refine ⟨?_, ?_, ?_, ?_⟩ <;>
      simp [evalR, iterCombine, h1, h2, mapKeyElems, mapValElems]

/-- Oracle with all server-side relations false, for concrete instances. -/
def oracle0 : ServerOracle :=
  ⟨fun _ _ _ => false, fun _ _ => false, fun _ _ => false⟩

/-- A record with no bins. -/
def rec0 : as_record := ⟨[], 0, 0, 0, 0⟩

/-- A record whose list bin (name byte 112) is the empty list and whose map
bin (name byte 109) is the empty map. -/
def recEmptyColl : as_record :=
  ⟨[([112], .listv []), ([109], .mapv [])], 0, 0, 0, 0⟩

/-- Concrete instance of the unknown-operand semantics: with no bin named 99
in the record, the extractor pushes unknown, the comparison of that bin with
the constant 7 evaluates to false, and its NOT evaluates to true. -/
theorem unknown_bin_and_comparison_semantics_witness :
    assocFind rec0.bins [99] = none ∧
    evalR oracle0 rec0 1 [] [.integer_bin [99]] = some (.unknown, []) ∧
    evalR oracle0 rec0 2 [] [.integer_equal, .integer_value 7, .integer_bin [99]] =
      some (.boolv false, []) ∧
    evalR oracle0 rec0 3 [] [.not_, .integer_equal, .integer_value 7, .integer_bin [99]] =
      some (.boolv true, []) := by
  have h := unknown_bin_and_comparison_semantics oracle0 rec0 1 []
    [.integer_value 7, .integer_bin [99]] [99]
  refine ⟨rfl, ?_, ?_, ?_⟩
  · exact ((unknown_bin_and_comparison_semantics oracle0 rec0 0 [] [] [99]).1 rfl).1
  · exact (h.2.2 .integer_equal (.intv 7) .unknown [.integer_bin [99]] []
      (Or.inl rfl) rfl rfl (Or.inl rfl)).1
  · exact (h.2.2 .integer_equal (.intv 7) .unknown [.integer_bin [99]] []
      (Or.inl rfl) rfl rfl (Or.inl rfl)).2

/-- Concrete instance of vacuous truth: iterating a comparison subexpression
over the empty list bin yields false for OR and true for AND, and likewise
over the empty map bin for the map-key and map-value iterations. -/
theorem iterate_empty_collection_vacuous_witness :
    evalR oracle0 recEmptyColl 2 []
      [.list_bin [112], .string_equal, .string_var [105], .string_value [99, 97, 116]] =
      some (.listv [], [.string_equal, .string_var [105], .string_value [99, 97, 116]]) ∧
    evalR oracle0 recEmptyColl 3 []
      [.list_iterate_or [105], .list_bin [112], .string_equal, .string_var [105],
        .string_value [99, 97, 116]] = some (.boolv false, []) ∧
    evalR oracle0 recEmptyColl 3 []
      [.list_iterate_and [105], .list_bin [112], .string_equal, .string_var [105],
        .string_value [99, 97, 116]] = some (.boolv true, []) ∧
    evalR oracle0 recEmptyColl 3 []
      [.mapkey_iterate_or [105], .map_bin [109], .string_equal, .string_var [105],
        .string_value [99, 97, 116]] = some (.boolv false, []) ∧
    evalR oracle0 recEmptyColl 3 []
      [.mapkey_iterate_and [105], .map_bin [109], .string_equal, .string_var [105],
        .string_value [99, 97, 116]] = some (.boolv true, []) ∧
    evalR oracle0 recEmptyColl 3 []
      [.mapval_iterate_or [105], .map_bin [109], .string_equal, .string_var [105],
        .string_value [99, 97, 116]] = some (.boolv false, []) ∧
    evalR oracle0 recEmptyColl 3 []
      [.mapval_iterate_and [105], .map_bin [109], .string_equal, .string_var [105],
        .string_value [99, 97, 116]] = some (.boolv true, []) := by
  have hl := (iterate_empty_collection_vacuous oracle0 recEmptyColl 2 []
    [.list_bin [112], .string_equal, .string_var [105], .string_value [99, 97, 116]]
    [.string_equal, .string_var [105], .string_value [99, 97, 116]] [] [105]
    (.boolv false)).1 rfl rfl
  have hm := (iterate_empty_collection_vacuous oracle0 recEmptyColl 2 []
    [.map_bin [109], .string_equal, .string_var [105], .string_value [99, 97, 116]]
    [.string_equal, .string_var [105], .string_value [99, 97, 116]] [] [105]
    (.boolv false)).2 rfl rfl
  exact ⟨rfl, hl.1, hl.2, hm.1, hm.2.1, hm.2.2.1, hm.2.2.2⟩

/-! ## Error taxonomy (spec section 7) -/

/-- The error outcomes surfaced by the modelled operations: construction
failure at a factory and size overflow at the size/write passes. -/
inductive as_client_error where
  | construction
  | sizeOverflow

/-! ### Size overflow (C6) -/

/-- Modelled from the spec: size() surfaces SizeOverflowError when the total
encoded size exceeds the enclosing command maximum predicate-expression
budget, and returns the total otherwise. -/
def as_predexp_list_size_checked (maxBudget : Nat) (l : as_predexp_list) :
    Except as_client_error Nat :=
  if maxBudget < as_predexp_list_size l then .error .sizeOverflow
  else .ok (as_predexp_list_size l)

/-- Modelled from the spec: write() aborts with SizeOverflowError when the
total size exceeds the budget, emitting no partial bytes; the result pairs
the outcome with the destination buffer contents after the call. -/
def as_predexp_list_write_checked (maxBudget : Nat) (l : as_predexp_list)
    (buf : List Nat) : Except as_client_error Unit × List Nat :=
  if maxBudget < as_predexp_list_size l then (.error .sizeOverflow, buf)
  else (.ok (), as_predexp_list_write l buf)

/-- C6: when the total encoded size of the list exceeds the enclosing command
maximum predicate-expression budget, size and write surface
SizeOverflowError and serialization aborts with the destination buffer
unchanged. -/
theorem size_overflow_aborts_without_partial_bytes
    (maxBudget : Nat) (l : as_predexp_list) (buf : List Nat)
    (h : maxBudget < as_predexp_list_size l) :
    as_predexp_list_size_checked maxBudget l = .error .sizeOverflow ∧
    as_predexp_list_write_checked maxBudget l buf = (.error .sizeOverflow, buf) := by
  constructor <;>
    simp [as_predexp_list_size_checked, as_predexp_list_write_checked, h]

/-- Concrete instance of the overflow abort: a single NOT node has encoded
size 6, which exceeds a budget of 5; the buffer holding byte 7 is unchanged. -/
theorem size_overflow_aborts_witness :
    5 < as_predexp_list_size [.not_] ∧
    as_predexp_list_size_checked 5 [.not_] = .error .sizeOverflow ∧
    as_predexp_list_write_checked 5 [.not_] [7] = (.error .sizeOverflow, [7]) := by
  have h : 5 < as_predexp_list_size [.not_] := by decide
  exact ⟨h, (size_overflow_aborts_without_partial_bytes 5 [.not_] [7] h).1,
    (size_overflow_aborts_without_partial_bytes 5 [.not_] [7] h).2⟩

/-! ### Node factories (C7)

Modelled from the spec: the factory bodies are not under src/ (as_predexp.h
only declares them).  Per the spec, construction fails with a
ConstructionError when a supplied name/string/blob exceeds its wire field
length-encoding capacity (the payload length field is a uint32, so byte
strings must be shorter than 2^32), or when a numeric argument is outside
its declared C range (uint16 child count, int64 constant, int32 modulus,
uint32 regex cflags); for in-range arguments the factory returns the node. -/

/-- Modelled from the spec: shared name-length check of the factories taking
a byte-string argument. -/
def checkedName (mk : List Nat → as_predexp) (nm : List Nat) :
    Except as_client_error as_predexp :=
  if nm.length < 2 ^ 32 then .ok (mk nm) else .error .construction

/-- Modelled from the spec: AND factory, uint16 child count. -/
def as_predexp_and (nexpr : Nat) : Except as_client_error as_predexp :=
  if nexpr < 2 ^ 16 then .ok (.and_ nexpr) else .error .construction

/-- Modelled from the spec: OR factory, uint16 child count. -/
def as_predexp_or (nexpr : Nat) : Except as_client_error as_predexp :=
  if nexpr < 2 ^ 16 then .ok (.or_ nexpr) else .error .construction

/-- Modelled from the spec: NOT factory, no argument. -/
def as_predexp_not : Except as_client_error as_predexp := .ok .not_

/-- Modelled from the spec: integer constant factory, int64 value. -/
def as_predexp_integer_value (value : Int) : Except as_client_error as_predexp :=
  if -2 ^ 63 ≤ value ∧ value < 2 ^ 63 then .ok (.integer_value value)
  else .error .construction

/-- Modelled from the spec: string constant factory. -/
def as_predexp_string_value (value : List Nat) : Except as_client_error as_predexp :=
  checkedName .string_value value

/-- Modelled from the spec: GeoJSON constant factory. -/
def as_predexp_geojson_value (value : List Nat) : Except as_client_error as_predexp :=
  checkedName .geojson_value value

/-- Modelled from the spec: integer bin extractor factory. -/
def as_predexp_integer_bin (binname : List Nat) : Except as_client_error as_predexp :=
  checkedName .integer_bin binname

/-- Modelled from the spec: string bin extractor factory. -/
def as_predexp_string_bin (binname : List Nat) : Except as_client_error as_predexp :=
  checkedName .string_bin binname

/-- Modelled from the spec: GeoJSON bin extractor factory. -/
def as_predexp_geojson_bin (binname : List Nat) : Except as_client_error as_predexp :=
  checkedName .geojson_bin binname

/-- Modelled from the spec: list bin extractor factory. -/
def as_predexp_list_bin (binname : List Nat) : Except as_client_error as_predexp :=
  checkedName .list_bin binname

/-- Modelled from the spec: map bin extractor factory. -/
def as_predexp_map_bin (binname : List Nat) : Except as_client_error as_predexp :=
  checkedName .map_bin binname

/-- Modelled from the spec: integer iteration variable factory. -/
def as_predexp_integer_var (varname : List Nat) : Except as_client_error as_predexp :=
  checkedName .integer_var varname

/-- Modelled from the spec: string iteration variable factory. -/
def as_predexp_string_var (varname : List Nat) : Except as_client_error as_predexp :=
  checkedName .string_var varname

/-- Modelled from the spec: GeoJSON iteration variable factory. -/
def as_predexp_geojson_var (varname : List Nat) : Except as_client_error as_predexp :=
  checkedName .geojson_var varname

/-- Modelled from the spec: record device size metadata factory. -/
def as_predexp_rec_device_size : Except as_client_error as_predexp :=
  .ok .rec_device_size

/-- Modelled from the spec: record last update metadata factory. -/
def as_predexp_rec_last_update : Except as_client_error as_predexp :=
  .ok .rec_last_update

/-- Modelled from the spec: record void time metadata factory. -/
def as_predexp_rec_void_time : Except as_client_error as_predexp :=
  .ok .rec_void_time

/-- Modelled from the spec: digest modulo factory, int32 modulus. -/
def as_predexp_rec_digest_modulo (mod : Int) : Except as_client_error as_predexp :=
  if -2 ^ 31 ≤ mod ∧ mod < 2 ^ 31 then .ok (.rec_digest_modulo mod)
  else .error .construction

/-- Modelled from the spec: integer equality comparison factory. -/
def as_predexp_integer_equal : Except as_client_error as_predexp :=
  .ok .integer_equal

/-- Modelled from the spec: integer inequality comparison factory. -/
def as_predexp_integer_unequal : Except as_client_error as_predexp :=
  .ok .integer_unequal

/-- Modelled from the spec: integer greater-than comparison factory. -/
def as_predexp_integer_greater : Except as_client_error as_predexp :=
  .ok .integer_greater

/-- Modelled from the spec: integer greater-or-equal comparison factory. -/
def as_predexp_integer_greatereq : Except as_client_error as_predexp :=
  .ok .integer_greatereq

/-- Modelled from the spec: integer less-than comparison factory. -/
def as_predexp_integer_less : Except as_client_error as_predexp :=
  .ok .integer_less

/-- Modelled from the spec: integer less-or-equal comparison factory. -/
def as_predexp_integer_lesseq : Except as_client_error as_predexp :=
  .ok .integer_lesseq

/-- Modelled from the spec: string equality comparison factory. -/
def as_predexp_string_equal : Except as_client_error as_predexp :=
  .ok .string_equal

/-- Modelled from the spec: string inequality comparison factory. -/
def as_predexp_string_unequal : Except as_client_error as_predexp :=
  .ok .string_unequal

/-- Modelled from the spec: string regex comparison factory, uint32 cflags. -/
def as_predexp_string_regex (cflags : Nat) : Except as_client_error as_predexp :=
  if cflags < 2 ^ 32 then .ok (.string_regex cflags) else .error .construction

/-- Modelled from the spec: GeoJSON within comparison factory. -/
def as_predexp_geojson_within : Except as_client_error as_predexp :=
  .ok .geojson_within

/-- Modelled from the spec: GeoJSON contains comparison factory. -/
def as_predexp_geojson_contains : Except as_client_error as_predexp :=
  .ok .geojson_contains

/-- Modelled from the spec: list iteration OR factory. -/
def as_predexp_list_iterate_or (varname : List Nat) : Except as_client_error as_predexp :=
  checkedName .list_iterate_or varname

/-- Modelled from the spec: list iteration AND factory. -/
def as_predexp_list_iterate_and (varname : List Nat) : Except as_client_error as_predexp :=
  checkedName .list_iterate_and varname

/-- Modelled from the spec: map key iteration OR factory. -/
def as_predexp_mapkey_iterate_or (varname : List Nat) : Except as_client_error as_predexp :=
  checkedName .mapkey_iterate_or varname

/-- Modelled from the spec: map key iteration AND factory. -/
def as_predexp_mapkey_iterate_and (varname : List Nat) : Except as_client_error as_predexp :=
  checkedName .mapkey_iterate_and varname

/-- Modelled from the spec: map value iteration OR factory. -/
def as_predexp_mapval_iterate_or (varname : List Nat) : Except as_client_error as_predexp :=
  checkedName .mapval_iterate_or varname

/-- Modelled from the spec: map value iteration AND factory. -/
def as_predexp_mapval_iterate_and (varname : List Nat) : Except as_client_error as_predexp :=
  checkedName .mapval_iterate_and varname

/-- C7: every node factory fails with a ConstructionError, creating no node,
when a supplied name/string/blob exceeds the uint32 length field capacity or
a numeric argument is outside its declared range; for in-range arguments
every factory returns the node. -/
theorem factory_construction_checks
    (nmLong nmOk : List Nat) (hLong : 2 ^ 32 ≤ nmLong.length) (hOk : nmOk.length < 2 ^ 32)
    (nBig n : Nat) (hnBig : 2 ^ 16 ≤ nBig) (hn : n < 2 ^ 16)
    (vBig v : Int) (hvBig : 2 ^ 63 ≤ vBig) (hv : -2 ^ 63 ≤ v ∧ v < 2 ^ 63)
    (mBig m : Int) (hmBig : 2 ^ 31 ≤ mBig) (hm : -2 ^ 31 ≤ m ∧ m < 2 ^ 31)
    (cBig c : Nat) (hcBig : 2 ^ 32 ≤ cBig) (hc : c < 2 ^ 32) :
    as_predexp_and nBig = .error .construction ∧
    as_predexp_or nBig = .error .construction ∧
    as_predexp_integer_value vBig = .error .construction ∧
    as_predexp_string_value nmLong = .error .construction ∧
    as_predexp_geojson_value nmLong = .error .construction ∧
    as_predexp_integer_bin nmLong = .error .construction ∧
    as_predexp_string_bin nmLong = .error .construction ∧
    as_predexp_geojson_bin nmLong = .error .construction ∧
    as_predexp_list_bin nmLong = .error .construction ∧
    as_predexp_map_bin nmLong = .error .construction ∧
    as_predexp_integer_var nmLong = .error .construction ∧
    as_predexp_string_var nmLong = .error .construction ∧
    as_predexp_geojson_var nmLong = .error .construction ∧
    as_predexp_rec_digest_modulo mBig = .error .construction ∧
    as_predexp_string_regex cBig = .error .construction ∧
    as_predexp_list_iterate_or nmLong = .error .construction ∧
    as_predexp_list_iterate_and nmLong = .error .construction ∧
    as_predexp_mapkey_iterate_or nmLong = .error .construction ∧
    as_predexp_mapkey_iterate_and nmLong = .error .construction ∧
    as_predexp_mapval_iterate_or nmLong = .error .construction ∧
    as_predexp_mapval_iterate_and nmLong = .error .construction ∧
    as_predexp_and n = .ok (.and_ n) ∧
    as_predexp_or n = .ok (.or_ n) ∧
    as_predexp_not = .ok .not_ ∧
    as_predexp_integer_value v = .ok (.integer_value v) ∧
    as_predexp_string_value nmOk = .ok (.string_value nmOk) ∧
    as_predexp_geojson_value nmOk = .ok (.geojson_value nmOk) ∧
    as_predexp_integer_bin nmOk = .ok (.integer_bin nmOk) ∧
    as_predexp_string_bin nmOk = .ok (.string_bin nmOk) ∧
    as_predexp_geojson_bin nmOk = .ok (.geojson_bin nmOk) ∧
    as_predexp_list_bin nmOk = .ok (.list_bin nmOk) ∧
    as_predexp_map_bin nmOk = .ok (.map_bin nmOk) ∧
    as_predexp_integer_var nmOk = .ok (.integer_var nmOk) ∧
    as_predexp_string_var nmOk = .ok (.string_var nmOk) ∧
    as_predexp_geojson_var nmOk = .ok (.geojson_var nmOk) ∧
    as_predexp_rec_device_size = .ok .rec_device_size ∧
    as_predexp_rec_last_update = .ok .rec_last_update ∧
    as_predexp_rec_void_time = .ok .rec_void_time ∧
    as_predexp_rec_digest_modulo m = .ok (.rec_digest_modulo m) ∧
    as_predexp_integer_equal = .ok .integer_equal ∧
    as_predexp_integer_unequal = .ok .integer_unequal ∧
    as_predexp_integer_greater = .ok .integer_greater ∧
    as_predexp_integer_greatereq = .ok .integer_greatereq ∧
    as_predexp_integer_less = .ok .integer_less ∧
    as_predexp_integer_lesseq = .ok .integer_lesseq ∧
    as_predexp_string_equal = .ok .string_equal ∧
    as_predexp_string_unequal = .ok .string_unequal ∧
    as_predexp_string_regex c = .ok (.string_regex c) ∧
    as_predexp_geojson_within = .ok .geojson_within ∧
    as_predexp_geojson_contains = .ok .geojson_contains ∧
    as_predexp_list_iterate_or nmOk = .ok (.list_iterate_or nmOk) ∧
    as_predexp_list_iterate_and nmOk = .ok (.list_iterate_and nmOk) ∧
    as_predexp_mapkey_iterate_or nmOk = .ok (.mapkey_iterate_or nmOk) ∧
    as_predexp_mapkey_iterate_and nmOk = .ok (.mapkey_iterate_and nmOk) ∧
    as_predexp_mapval_iterate_or nmOk = .ok (.mapval_iterate_or nmOk) ∧
    as_predexp_mapval_iterate_and nmOk = .ok (.mapval_iterate_and nmOk) := by
  have hLong2 : ¬ nmLong.length < 2 ^ 32 := not_lt.mpr hLong
  have hnBig2 : ¬ nBig < 2 ^ 16 := not_lt.mpr hnBig
  have hvBig2 : ¬ vBig < 2 ^ 63 := not_lt.mpr hvBig
  have hmBig2 : ¬ mBig < 2 ^ 31 := not_lt.mpr hmBig
  have hcBig2 : ¬ cBig < 2 ^ 32 := not_lt.mpr hcBig
  have hvBig3 : ¬ (-2 ^ 63 ≤ vBig ∧ vBig < 2 ^ 63) := fun hp => hvBig2 hp.2
  have hmBig3 : ¬ (-2 ^ 31 ≤ mBig ∧ mBig < 2 ^ 31) := fun hp => hmBig2 hp.2
  refine ⟨?_, ?_, ?_, ?_, ?_, ?_, ?_, ?_, ?_, ?_, ?_, ?_, ?_, ?_, ?_, ?_, ?_, ?_, ?_,
    ?_, ?_, ?_, ?_, ?_, ?_, ?_, ?_, ?_, ?_, ?_, ?_, ?_, ?_, ?_, ?_, ?_, ?_, ?_, ?_,
    ?_, ?_, ?_, ?_, ?_, ?_, ?_, ?_, ?_, ?_, ?_, ?_, ?_, ?_, ?_, ?_, ?_⟩ <;>
    simp only [as_predexp_and, as_predexp_or, as_predexp_not, as_predexp_integer_value,
      as_predexp_string_value, as_predexp_geojson_value, as_predexp_integer_bin,
      as_predexp_string_bin, as_predexp_geojson_bin, as_predexp_list_bin,
      as_predexp_map_bin, as_predexp_integer_var, as_predexp_string_var,
      as_predexp_geojson_var, as_predexp_rec_device_size, as_predexp_rec_last_update,
      as_predexp_rec_void_time, as_predexp_rec_digest_modulo, as_predexp_integer_equal,
      as_predexp_integer_unequal, as_predexp_integer_greater, as_predexp_integer_greatereq,
      as_predexp_integer_less, as_predexp_integer_lesseq, as_predexp_string_equal,
      as_predexp_string_unequal, as_predexp_string_regex, as_predexp_geojson_within,
      as_predexp_geojson_contains, as_predexp_list_iterate_or, as_predexp_list_iterate_and,
      as_predexp_mapkey_iterate_or, as_predexp_mapkey_iterate_and,
      as_predexp_mapval_iterate_or, as_predexp_mapval_iterate_and, checkedName] <;>
    first
      | rfl
      | rw [if_neg hnBig2]
      | rw [if_pos hn]
      | rw [if_neg hLong2]
      | rw [if_pos hOk]
      | rw [if_neg hvBig3]
      | rw [if_pos hv]
      | rw [if_neg hmBig3]
      | rw [if_pos hm]
      | rw [if_neg hcBig2]
      | rw [if_pos hc]

/-- Concrete instance of the construction checks: a 2^32-byte name is
rejected, a 2-child AND with child count 2^16 is rejected, and in-range
arguments produce nodes. -/
theorem factory_construction_checks_witness :
    2 ^ 32 ≤ (List.replicate (2 ^ 32) (0 : Nat)).length ∧
    ([99] : List Nat).length < 2 ^ 32 ∧
    as_predexp_and (2 ^ 16) = .error .construction ∧
    as_predexp_string_value (List.replicate (2 ^ 32) (0 : Nat)) = .error .construction ∧
    as_predexp_and 2 = .ok (.and_ 2) ∧
    as_predexp_integer_bin [99] = .ok (.integer_bin [99]) ∧
    as_predexp_rec_digest_modulo 3 = .ok (.rec_digest_modulo 3) := by
  obtain ⟨e1, e2, e3, e4, e5, e6, e7, e8, e9, e10, e11, e12, e13, e14, e15, e16, e17,
    e18, e19, e20, e21, o1, o2, o3, o4, o5, o6, o7, o8, o9, o10, o11, o12, o13, o14,
    o15, o16, o17, o18, o19, o20, o21, o22, o23, o24, o25, o26, o27, o28, o29, o30,
    o31, o32, o33, o34, o35⟩ :=
    factory_construction_checks (List.replicate (2 ^ 32) (0 : Nat)) [99]
      (by rw [List.length_replicate]) (by norm_num) (2 ^ 16) 2 le_rfl (by norm_num)
      (2 ^ 63) 5 le_rfl (by norm_num) (2 ^ 31) 3 le_rfl (by norm_num)
      (2 ^ 32) 0 le_rfl (by norm_num)
  exact ⟨by rw [List.length_replicate], by norm_num, e1, e4, o1, o7, o18⟩

/-! ### Append behaviour (C8)

The append operation is visible in src/: as_predexp_list_add is a static
inline (as_predexp.h lines 193-197) returning void that unconditionally
calls as_vector_append; the visible as_predexp_base struct holds only the
three function pointers, with no owner field.  The operation therefore
performs no ownership check and has no failure path of any kind, which the
theorems below state over its embedding as_predexp_list_add. -/

/-- C8 counterexample: the NOT node is already contained in the one-element
list holding it (owned by that list), yet as_predexp_list_add silently
appends it to a different list and returns the extended list; the embedded
operation, mirroring the void static inline of as_predexp.h, is total with
no error outcome, so no OwnershipError is ever surfaced. -/
theorem append_owned_elsewhere_silently_accepted :
    (as_predexp.not_ ∈ ([.not_] : as_predexp_list)) ∧
    as_predexp_list_add [.integer_equal] .not_ = [.integer_equal, .not_] :=
  ⟨List.mem_singleton.mpr rfl, rfl⟩

/-- C8 (amended): as_predexp_list_add appends the node at the end of the
list unconditionally; it performs no ownership check and has no failure
path, so even a node already contained in (owned by) another list is
silently accepted, joining the end of the target list and growing it by
one. -/
theorem append_unconditional_no_ownership_check
    (l l2 : as_predexp_list) (e : as_predexp) (_h : e ∈ l2) :
    as_predexp_list_add l e = l ++ [e] ∧
    e ∈ as_predexp_list_add l e ∧
    (as_predexp_list_add l e).length = l.length + 1 := by
  refine ⟨rfl, ?_, ?_⟩
  · simp [as_predexp_list_add]
  · simp [as_predexp_list_add]

/-- Concrete instance of the unconditional append: NOT, already a member of
the list holding it, is still appended to another list, appears in the
result and grows it to length 2. -/
theorem append_unconditional_no_ownership_check_witness :
    (as_predexp.not_ ∈ ([.not_] : as_predexp_list)) ∧
    as_predexp_list_add [.integer_equal] .not_ = [.integer_equal, .not_] ∧
    as_predexp.not_ ∈ as_predexp_list_add [.integer_equal] .not_ ∧
    (as_predexp_list_add [.integer_equal] .not_).length = 2 := by
  have h : as_predexp.not_ ∈ ([.not_] : as_predexp_list) := List.mem_singleton.mpr rfl
  obtain ⟨h1, h2, h3⟩ :=
    append_unconditional_no_ownership_check [.integer_equal] [.not_] .not_ h
  exact ⟨h, h1, h2, h3⟩

end Aerospike
